import Mathlib

/-!
# Verification of the HealthSense symptom-triage core

Shallow embedding of the core logic of the repository (src/core/models.py,
src/core/diagnosis_logic.py, src/core/rag_engine.py, src/core/gemini_client.py,
src/data/medical_facts.py) together with proofs settling the frozen claims.

Python strings are modelled by `String`; Python's substring operator `in`,
`str.lower()` and `str.strip()` are modelled by explicit char-list functions;
Python dict replies from the model are modelled by structures with optional
fields (a missing key is `none`); floats (reliability scores) are modelled by
exact rationals; Python's stable `list.sort` is modelled by a stable insertion
sort.
-/

deriving instance DecidableEq for Except

/-- `needle` occurs as a contiguous sublist of the second argument. -/
def listInfix (needle : List Char) : List Char → Bool
  | [] => needle.isEmpty
  | c :: cs => needle.isPrefixOf (c :: cs) || listInfix needle cs

/-- Python `needle in hay` substring test on strings. -/
def strContains (hay needle : String) : Bool :=
  listInfix needle.toList hay.toList

/-- Python `str.lower()` (ASCII case folding, as `Char.toLower`). -/
def lowerStr (s : String) : String :=
  String.mk (s.toList.map Char.toLower)

/-- Python `str.strip()`: remove leading and trailing whitespace. -/
def pyStrip (s : String) : String :=
  String.mk (((s.toList.dropWhile Char.isWhitespace).reverse.dropWhile Char.isWhitespace).reverse)

/-- A character of a Python regex `\w` word (`\b\w+\b` tokenization). -/
def wordChar (c : Char) : Bool := c.isAlphanum || c = '_'

/-- Maximal runs of word characters, as in Python `re.findall(r'\b\w+\b', text)`.
`cur` holds the (reversed) current run. -/
def pyWordsAux (cur : List Char) : List Char → List String
  | [] => if cur = [] then [] else [String.mk cur.reverse]
  | c :: cs =>
    if wordChar c then pyWordsAux (c :: cur) cs
    else if cur = [] then pyWordsAux [] cs
    else String.mk cur.reverse :: pyWordsAux [] cs

/-- Python `re.findall(r'\b\w+\b', text)`. -/
def pyWords (s : String) : List String := pyWordsAux [] s.toList

/-! ## Data model (src/core/models.py) -/

/-- `ConfidenceLevel` enum (src/core/models.py lines 7-11). -/
inductive ConfidenceLevel
  | high
  | medium
  | low
deriving DecidableEq, Repr

/-- The string value of a `ConfidenceLevel` member. -/
def ConfidenceLevel.value : ConfidenceLevel → String
  | .high => "High"
  | .medium => "Medium"
  | .low => "Low"

/-- `UrgencyLevel` enum (src/core/models.py lines 14-19). -/
inductive UrgencyLevel
  | critical
  | urgent
  | moderate
  | low
deriving DecidableEq, Repr

/-- The string value of an `UrgencyLevel` member. -/
def UrgencyLevel.value : UrgencyLevel → String
  | .critical => "Critical"
  | .urgent => "Urgent"
  | .moderate => "Moderate"
  | .low => "Low"

/-- `ConfidenceLevel(s)`: `some` on a canonical spelling, `none` models the
`ValueError` branch. -/
def confidenceFromString (s : String) : Option ConfidenceLevel :=
  if s = "High" then some .high
  else if s = "Medium" then some .medium
  else if s = "Low" then some .low
  else none

/-- `UrgencyLevel(s)`: `some` on a canonical spelling, `none` models the
`ValueError` branch. -/
def urgencyFromString (s : String) : Option UrgencyLevel :=
  if s = "Critical" then some .critical
  else if s = "Urgent" then some .urgent
  else if s = "Moderate" then some .moderate
  else if s = "Low" then some .low
  else none

/-- `MedicalFact` dataclass (src/core/models.py lines 22-30); the float
`reliability_score` is modelled by an exact rational. -/
structure MedicalFact where
  id : String
  fact : String
  category : String
  keywords : List String := []
  source : Option String := none
  reliability_score : ℚ := 1
deriving DecidableEq, Repr

/-- `Condition` dataclass (src/core/models.py lines 33-41). -/
structure Condition where
  name : String
  confidence : ConfidenceLevel
  reasoning : String
  recommendation : String
  urgency : UrgencyLevel := .moderate
  related_symptoms : List String := []
deriving DecidableEq, Repr

/-- Value of an entry in the open `metadata` map of a `DiagnosisResult`. -/
inductive MetaValue
  | str (s : String)
  | nat (n : Nat)
  | bool (b : Bool)
deriving DecidableEq, Repr

/-- `DiagnosisResult` dataclass (src/core/models.py lines 44-53); the dict
`metadata` is modelled as an association list (all keys written by the core are
distinct, so `update` is modelled by append). -/
structure DiagnosisResult where
  conditions : List Condition
  flagged : Bool := false
  urgency_level : UrgencyLevel := .moderate
  disclaimer : String := "This is not a substitute for professional medical advice. Please consult a healthcare provider."
  lifestyle_suggestions : Option (List String) := none
  next_steps : List String := []
  metadata : List (String × MetaValue) := []
deriving DecidableEq, Repr

/-- One entry of the `possible_conditions` array produced by
`DiagnosisResult.to_dict` (src/core/models.py lines 58-68). -/
structure ConditionDict where
  condition : String
  confidence : String
  reasoning : String
  recommendation : String
  urgency : String
  related_symptoms : List String
deriving DecidableEq, Repr

/-- The dictionary produced by `DiagnosisResult.to_dict`
(src/core/models.py lines 55-75). -/
structure DiagnosisResultDict where
  possible_conditions : List ConditionDict
  flagged : Bool
  urgency_level : String
  lifestyle_suggestions : List String
  next_steps : List String
  disclaimer : String
  metadata : List (String × MetaValue)
deriving DecidableEq, Repr

/-- `DiagnosisResult.to_dict` (src/core/models.py lines 55-75).  Python's
`self.lifestyle_suggestions or []` maps `None` to `[]` and, by list truthiness,
an empty list to `[]` as well. -/
def DiagnosisResult.to_dict (r : DiagnosisResult) : DiagnosisResultDict :=
  { possible_conditions := r.conditions.map (fun c =>
      { condition := c.name
        confidence := c.confidence.value
        reasoning := c.reasoning
        recommendation := c.recommendation
        urgency := c.urgency.value
        related_symptoms := c.related_symptoms })
    flagged := r.flagged
    urgency_level := r.urgency_level.value
    lifestyle_suggestions :=
      match r.lifestyle_suggestions with
      | none => []
      | some l => if l = [] then [] else l
    next_steps := r.next_steps
    disclaimer := r.disclaimer
    metadata := r.metadata }

/-! ## Fact store (src/data/medical_facts.py) -/

/-- `MEDICAL_FACTS_DB` (src/data/medical_facts.py lines 7-129). -/
def MEDICAL_FACTS_DB : List MedicalFact := [
  { id := "fever_001"
    fact := "Fever is typically defined as a body temperature above 100.4°F (38°C). It's often a sign of infection or inflammation."
    category := "Fever"
    keywords := ["fever", "temperature", "hot", "chills", "sweating"]
    source := some "Mayo Clinic"
    reliability_score := 0.95 },
  { id := "infection_001"
    fact := "Common symptoms of viral infections include fever, fatigue, body aches, and respiratory symptoms."
    category := "Infection"
    keywords := ["infection", "viral", "bacterial", "flu", "cold"]
    source := some "CDC"
    reliability_score := 0.95 },
  { id := "respiratory_001"
    fact := "Shortness of breath, especially when accompanied by chest pain, can indicate serious conditions requiring immediate medical attention."
    category := "Respiratory"
    keywords := ["shortness of breath", "difficulty breathing", "chest pain", "wheezing"]
    source := some "American Lung Association"
    reliability_score := 0.98 },
  { id := "respiratory_002"
    fact := "Persistent cough lasting more than 3 weeks should be evaluated by a healthcare provider."
    category := "Respiratory"
    keywords := ["cough", "persistent", "chronic"]
    source := some "American Thoracic Society"
    reliability_score := 0.90 },
  { id := "headache_001"
    fact := "Migraines often present with throbbing pain, nausea, sensitivity to light and sound, and can last 4-72 hours."
    category := "Neurological"
    keywords := ["migraine", "headache", "throbbing", "nausea", "light sensitivity"]
    source := some "American Migraine Foundation"
    reliability_score := 0.92 },
  { id := "headache_002"
    fact := "Sudden severe headache (thunderclap headache) requires immediate medical evaluation as it may indicate serious conditions."
    category := "Neurological"
    keywords := ["sudden headache", "severe headache", "thunderclap"]
    source := some "Mayo Clinic"
    reliability_score := 0.98 },
  { id := "digestive_001"
    fact := "Gastroenteritis (stomach flu) typically causes nausea, vomiting, diarrhea, and abdominal cramps, usually resolving within 1-3 days."
    category := "Digestive"
    keywords := ["nausea", "vomiting", "diarrhea", "stomach", "abdominal", "cramps"]
    source := some "CDC"
    reliability_score := 0.93 },
  { id := "digestive_002"
    fact := "Severe abdominal pain, especially with fever or bloody stools, requires prompt medical evaluation."
    category := "Digestive"
    keywords := ["severe abdominal pain", "bloody stool", "fever"]
    source := some "American Gastroenterological Association"
    reliability_score := 0.95 },
  { id := "cardiac_001"
    fact := "Chest pain, especially when radiating to the arm, jaw, or back, along with shortness of breath, may indicate a heart condition requiring immediate attention."
    category := "Cardiovascular"
    keywords := ["chest pain", "heart", "cardiac", "arm pain", "jaw pain"]
    source := some "American Heart Association"
    reliability_score := 0.99 },
  { id := "fatigue_001"
    fact := "Chronic fatigue can be caused by various factors including sleep disorders, anemia, thyroid issues, or mental health conditions."
    category := "General"
    keywords := ["fatigue", "tiredness", "exhaustion", "weakness"]
    source := some "Mayo Clinic"
    reliability_score := 0.88 },
  { id := "skin_001"
    fact := "Rash with fever, especially in children, should be evaluated by a healthcare provider to rule out serious conditions."
    category := "Dermatological"
    keywords := ["rash", "skin", "redness", "itching"]
    source := some "American Academy of Dermatology"
    reliability_score := 0.90 },
  { id := "pain_001"
    fact := "Acute pain that is severe, sudden, or accompanied by other symptoms like fever or loss of function should be evaluated promptly."
    category := "General"
    keywords := ["severe pain", "acute pain", "sudden pain"]
    source := some "American Pain Society"
    reliability_score := 0.87 },
  { id := "mental_001"
    fact := "Persistent feelings of sadness, anxiety, or changes in sleep and appetite patterns may indicate mental health concerns that benefit from professional support."
    category := "Mental Health"
    keywords := ["sadness", "anxiety", "depression", "mood"]
    source := some "National Institute of Mental Health"
    reliability_score := 0.90 }
]

/-- Models Python's stable `list.sort(key=lambda x: x[0], reverse=True)` on the
scored-fact list (src/data/medical_facts.py line 153): a stable insertion sort
by descending score; an element is placed before every later element whose
score is ≤ its own, so equal scores keep their original relative order. -/
def insertDesc (x : ℚ × MedicalFact) : List (ℚ × MedicalFact) → List (ℚ × MedicalFact)
  | [] => [x]
  | y :: ys => if y.1 ≤ x.1 then x :: y :: ys else y :: insertDesc x ys

/-- Stable descending sort by score, see `insertDesc`. -/
def pySortDesc : List (ℚ × MedicalFact) → List (ℚ × MedicalFact)
  | [] => []
  | x :: xs => insertDesc x (pySortDesc xs)

/-- The per-fact score loop of `get_facts_by_keywords`
(src/data/medical_facts.py lines 137-145): each user keyword adds 1 if it
matches some fact keyword (`user in fact or fact in user`, the inner loop's
`break` making it count at most once per user keyword), case-insensitively. -/
def factMatchScore (keywords : List String) (fact : MedicalFact) : Nat :=
  let fact_keywords_lower := fact.keywords.map lowerStr
  let user_keywords_lower := keywords.map lowerStr
  user_keywords_lower.foldl
    (fun score user_keyword =>
      if fact_keywords_lower.any (fun fact_keyword =>
           strContains fact_keyword user_keyword || strContains user_keyword fact_keyword)
      then score + 1 else score) 0

/-- `get_facts_by_keywords` (src/data/medical_facts.py lines 132-154). -/
def get_facts_by_keywords (keywords : List String) (top_k : Nat) : List MedicalFact :=
  let scored_facts := MEDICAL_FACTS_DB.foldl
    (fun acc fact =>
      let score := factMatchScore keywords fact
      if score > 0 then acc ++ [((score : ℚ) * fact.reliability_score, fact)] else acc) []
  ((pySortDesc scored_facts).take top_k).map (·.2)

/-- `get_all_facts` (src/data/medical_facts.py lines 157-159). -/
def get_all_facts : List MedicalFact := MEDICAL_FACTS_DB

/-! ## RAG engine (src/core/rag_engine.py) -/

namespace RAGEngine

/-- The curated keyword list of `extract_keywords` (src/core/rag_engine.py lines 37-45). -/
def medical_keywords : List String := [
  "fever", "headache", "pain", "ache", "nausea", "vomiting",
  "diarrhea", "cough", "sore throat", "fatigue", "tired",
  "shortness of breath", "chest pain", "abdominal", "stomach",
  "rash", "itching", "swelling", "dizziness", "lightheaded",
  "chills", "sweating", "muscle", "joint", "stiffness",
  "numbness", "tingling", "weakness", "confusion", "anxiety",
  "depression", "mood", "sleep", "appetite", "weight"
]

/-- The stop-word set of `extract_keywords` (src/core/rag_engine.py lines 53-55);
the source's set literal spells "been" twice, which a list renders harmlessly. -/
def stop_words : List String := [
  "the", "a", "an", "and", "or", "but", "in", "on", "at",
  "to", "for", "of", "with", "by", "i", "have", "had", "has",
  "been", "is", "are", "was", "were", "be", "been", "being"
]

/-- `RAGEngine.extract_keywords` (src/core/rag_engine.py lines 24-62). -/
def extract_keywords (text : String) : List String :=
  let text_lower := lowerStr text
  let found_keywords := medical_keywords.filter (fun keyword => strContains text_lower keyword)
  let ws := pyWords text_lower
  let found_keywords := ws.foldl
    (fun acc word =>
      if word.length > 3 && !stop_words.contains word && !acc.contains word
      then acc ++ [word] else acc) found_keywords
  found_keywords.take 20

/-- `RAGEngine.retrieve_relevant_facts` (src/core/rag_engine.py lines 64-104);
`top_k` is the resolved fan-out (the engine's default is 5). -/
def retrieve_relevant_facts (symptoms : String) (top_k : Nat) : List MedicalFact :=
  if symptoms = "" || pyStrip symptoms = "" then []
  else
    let keywords := extract_keywords symptoms
    if keywords = [] then get_all_facts.take top_k
    else
      let facts := get_facts_by_keywords keywords top_k
      if facts = [] then get_all_facts.take top_k
      else facts

end RAGEngine

/-! ## Model reply (dict) and gateway (src/core/gemini_client.py) -/

/-- One entry of the `"conditions"` array in the model's JSON reply; every key
may be absent (`none`), mirroring `dict.get`. -/
structure CondData where
  name : Option String := none
  confidence : Option String := none
  reasoning : Option String := none
  recommendation : Option String := none
  urgency : Option String := none
  related_symptoms : Option (List String) := none
deriving DecidableEq, Repr

/-- The model's JSON reply dict, as consumed by `parse_llm_response`; every key
may be absent (`none`), mirroring `dict.get`. -/
structure ReplyMap where
  conditions : Option (List CondData) := none
  is_urgent : Option Bool := none
  urgency_level : Option String := none
  next_steps : Option (List String) := none
  lifestyle_suggestions : Option (List String) := none
deriving DecidableEq, Repr

namespace GeminiClient

/-- Outcome of one `model.generate_content` + JSON-extraction attempt inside
`GeminiClient.analyze_symptoms` (src/core/gemini_client.py lines 136-171):
either a successfully parsed reply dict, a `json.JSONDecodeError`, or any other
exception. -/
inductive AttemptOutcome
  | success (reply : ReplyMap)
  | parseFailure (msg : String)
  | otherFailure (msg : String)
deriving DecidableEq, Repr

set_option linter.unusedVariables false in
/-- `GeminiClient._create_fallback_response` (src/core/gemini_client.py
lines 197-219); the `symptom_text` argument is accepted and unused, as in the
source. -/
def create_fallback_response (symptom_text : String) : ReplyMap :=
  { conditions := some [
      { name := some "Unable to analyze"
        confidence := some "Low"
        reasoning := some "Unable to process symptoms at this time. Please consult a healthcare provider."
        recommendation := some "Please consult with a healthcare professional for proper evaluation."
        urgency := some "Moderate"
        related_symptoms := some [] }]
    is_urgent := some false
    urgency_level := some "Moderate"
    next_steps := some ["Consult a healthcare provider", "Monitor symptoms", "Seek emergency care if symptoms worsen"]
    lifestyle_suggestions := some [] }

/-- The retry loop of `GeminiClient.analyze_symptoms` (src/core/gemini_client.py
lines 136-173) over the listed attempt outcomes; the head of the list is the
current attempt, and "last attempt" (`attempt == max_retries - 1`) is "tail
empty".  A success returns the reply; a JSON-parse failure on the last attempt
returns the fallback reply; any other failure on the last attempt raises
`GeminiAPIError` carrying the attempt count and the last error. -/
def attemptLoop (max_retries : Nat) (symptom_text : String) :
    List AttemptOutcome → Except String ReplyMap
  | [] => .error "Failed to get response from Gemini API"
  | a :: rest =>
    match a with
    | .success r => .ok r
    | .parseFailure _ =>
      if rest.isEmpty then .ok (create_fallback_response symptom_text)
      else attemptLoop max_retries symptom_text rest
    | .otherFailure e =>
      if rest.isEmpty then
        .error ("Failed to get response from Gemini API after " ++ toString max_retries
          ++ " attempts: " ++ e)
      else attemptLoop max_retries symptom_text rest

/-- `GeminiClient.analyze_symptoms` (src/core/gemini_client.py lines 118-173):
`for attempt in range(self.max_retries)` over the given attempt outcomes. -/
def analyze_symptoms (max_retries : Nat) (symptom_text : String)
    (attempts : Nat → AttemptOutcome) : Except String ReplyMap :=
  attemptLoop max_retries symptom_text ((List.range max_retries).map attempts)

end GeminiClient

/-! ## Diagnosis logic (src/core/diagnosis_logic.py) -/

/-- `MEDICAL_DISCLAIMER` (src/core/diagnosis_logic.py lines 16-20). -/
def MEDICAL_DISCLAIMER : String :=
  "⚠️ IMPORTANT: This is not a substitute for professional medical advice. Always consult with a qualified healthcare provider for proper diagnosis and treatment. For medical emergencies, call emergency services immediately."

/-- `URGENT_KEYWORDS` (src/core/diagnosis_logic.py lines 23-30). -/
def URGENT_KEYWORDS : List String := [
  "chest pain", "heart attack", "stroke", "severe difficulty breathing",
  "can't breathe", "unconscious", "severe bleeding", "severe allergic reaction",
  "severe burn", "severe head injury", "severe abdominal pain", "severe pain",
  "loss of consciousness", "seizure", "choking", "severe trauma",
  "sudden severe headache", "thunderclap headache", "severe dizziness",
  "severe confusion", "severe weakness", "paralysis"
]

/-- `check_urgent_keywords` (src/core/diagnosis_logic.py lines 33-47): the
for-loop with early `return True` is the `any` over the keyword list. -/
def check_urgent_keywords (symptoms : String) : Bool :=
  let symptoms_lower := lowerStr symptoms
  URGENT_KEYWORDS.any (fun keyword => strContains symptoms_lower keyword)

/-- `validate_symptoms` (src/core/diagnosis_logic.py lines 50-66); `.error`
models the raised `ValidationError` with its message. -/
def validate_symptoms (symptoms : String) : Except String Unit :=
  if symptoms = "" || pyStrip symptoms = "" then
    .error "Symptoms cannot be empty. Please describe your symptoms."
  else if (pyStrip symptoms).length < 3 then
    .error "Symptom description is too short. Please provide more details."
  else if symptoms.length > 2000 then
    .error "Symptom description is too long. Please keep it under 2000 characters."
  else .ok ()

/-- The per-entry mapping of `parse_llm_response` (src/core/diagnosis_logic.py
lines 80-99): missing keys take the `dict.get` defaults and out-of-enum
confidence/urgency strings degrade to Low/Moderate (the `except ValueError`
branches). -/
def parse_condition (cond_data : CondData) : Condition :=
  { name := cond_data.name.getD "Unknown Condition"
    confidence := (confidenceFromString (cond_data.confidence.getD "Low")).getD .low
    reasoning := cond_data.reasoning.getD "No reasoning provided"
    recommendation := cond_data.recommendation.getD "Consult a healthcare provider"
    urgency := (urgencyFromString (cond_data.urgency.getD "Moderate")).getD .moderate
    related_symptoms := cond_data.related_symptoms.getD [] }

/-- `parse_llm_response` (src/core/diagnosis_logic.py lines 69-128); the
critical/urgent scan with `break` is `List.find?`. -/
def parse_llm_response (response : ReplyMap) : DiagnosisResult :=
  let conditions := (response.conditions.getD []).map parse_condition
  let is_urgent := response.is_urgent.getD false
  let urgency_level := (urgencyFromString (response.urgency_level.getD "Moderate")).getD .moderate
  let flag_level : Bool × UrgencyLevel :=
    if !is_urgent then
      match conditions.find? (fun cond => cond.urgency = .critical || cond.urgency = .urgent) with
      | some cond => (true, cond.urgency)
      | none => (is_urgent, urgency_level)
    else (is_urgent, urgency_level)
  { conditions := conditions
    flagged := flag_level.1
    urgency_level := flag_level.2
    disclaimer := MEDICAL_DISCLAIMER
    lifestyle_suggestions := response.lifestyle_suggestions
    next_steps := response.next_steps.getD []
    metadata := [("source", .str "gemini_ai"), ("conditions_count", .nat conditions.length)] }

namespace DiagnosisAnalyzer

/-- Externally observable calls made by `DiagnosisAnalyzer.analyze_symptoms`,
in order. -/
inductive Effect
  | retrieval
  | gatewayCall
deriving DecidableEq, Repr

/-- `DiagnosisAnalyzer.analyze_symptoms` (src/core/diagnosis_logic.py
lines 145-214).  The Gemini call is modelled by its outcome
(`.ok reply` for a returned dict, `.error e` for a raised exception whose text
is `e`); `top_k` is the RAG engine's configured fan-out (default 5).  The
returned effect list records which external calls were made, in order;
a `ValidationError` (`.error`) is raised before any of them. -/
def analyze_symptoms (gatewayOutcome : Except String ReplyMap) (top_k : Nat)
    (symptoms : String) : Except String DiagnosisResult × List Effect :=
  match validate_symptoms symptoms with
  | .error e => (.error e, [])
  | .ok _ =>
    let is_urgent_rule := check_urgent_keywords symptoms
    let medical_facts := RAGEngine.retrieve_relevant_facts symptoms top_k
    match gatewayOutcome with
    | .error e =>
      (.ok { conditions := [
               { name := "Analysis Unavailable"
                 confidence := .low
                 reasoning := "Unable to analyze symptoms at this time. Please consult a healthcare provider."
                 recommendation := "Please consult with a healthcare professional for proper evaluation."
                 urgency := .moderate }]
             flagged := is_urgent_rule
             urgency_level := if is_urgent_rule then .urgent else .moderate
             disclaimer := MEDICAL_DISCLAIMER
             next_steps := ["Consult a healthcare provider", "Monitor symptoms"]
             metadata := [("error", .str e)] },
       [.retrieval, .gatewayCall])
    | .ok llm_response =>
      let result := parse_llm_response llm_response
      let result :=
        if is_urgent_rule && !result.flagged then
          { result with
            flagged := true
            urgency_level := if result.urgency_level = .moderate then .urgent else result.urgency_level }
        else result
      let result := { result with
        metadata := result.metadata ++
          [("rule_based_urgent", .bool is_urgent_rule),
           ("medical_facts_count", .nat medical_facts.length)] }
      (.ok result, [.retrieval, .gatewayCall])

end DiagnosisAnalyzer

/-! ## Helper lemmas -/

/-- `pyStrip` of the empty string is empty. -/
lemma pyStrip_empty : pyStrip "" = "" := rfl

/-- Length bound for `get_facts_by_keywords`: at most `top_k` facts. -/
lemma get_facts_by_keywords_length_le (keywords : List String) (top_k : Nat) :
    (get_facts_by_keywords keywords top_k).length ≤ top_k := by
  unfold get_facts_by_keywords
  simp [List.length_take]

/-- The ok-branch of `DiagnosisAnalyzer.analyze_symptoms`, written with the
rule-based merge resolved into closed-form updates of the parsed result. -/
lemma analyze_ok_eq (s : String) (rep : ReplyMap) (k : Nat)
    (hv : validate_symptoms s = .ok ()) :
    DiagnosisAnalyzer.analyze_symptoms (.ok rep) k s =
      (.ok { parse_llm_response rep with
               flagged := ((parse_llm_response rep).flagged || check_urgent_keywords s)
               urgency_level :=
                 (if check_urgent_keywords s = true ∧ (parse_llm_response rep).flagged = false ∧
                     (parse_llm_response rep).urgency_level = .moderate
                  then .urgent else (parse_llm_response rep).urgency_level)
               metadata := (parse_llm_response rep).metadata ++
                 [("rule_based_urgent", .bool (check_urgent_keywords s)),
                  ("medical_facts_count", .nat (RAGEngine.retrieve_relevant_facts s k).length)] },
       [.retrieval, .gatewayCall]) := by
  simp only [DiagnosisAnalyzer.analyze_symptoms, hv]
  by_cases hrule : check_urgent_keywords s <;>
    by_cases hflag : (parse_llm_response rep).flagged <;>
    by_cases hmod : (parse_llm_response rep).urgency_level = UrgencyLevel.moderate <;>
    simp [hrule, hflag, hmod]

/-- The error-branch of `DiagnosisAnalyzer.analyze_symptoms`: the safety-net
fallback result, exactly as constructed in src/core/diagnosis_logic.py
lines 183-196. -/
lemma analyze_error_eq (s e : String) (k : Nat) (hv : validate_symptoms s = .ok ()) :
    DiagnosisAnalyzer.analyze_symptoms (.error e) k s =
      (.ok { conditions := [
               { name := "Analysis Unavailable"
                 confidence := .low
                 reasoning := "Unable to analyze symptoms at this time. Please consult a healthcare provider."
                 recommendation := "Please consult with a healthcare professional for proper evaluation."
                 urgency := .moderate }]
             flagged := check_urgent_keywords s
             urgency_level := if check_urgent_keywords s then .urgent else .moderate
             disclaimer := MEDICAL_DISCLAIMER
             next_steps := ["Consult a healthcare provider", "Monitor symptoms"]
             metadata := [("error", .str e)] },
       [.retrieval, .gatewayCall]) := by
  simp only [DiagnosisAnalyzer.analyze_symptoms, hv]

/-! ## Claim theorems -/

/-- C10: `DiagnosisResult.to_dict` always emits a list for
`lifestyle_suggestions` — a `none` field serializes as the empty list, so the
external representation cannot distinguish absent from empty — and
`possible_conditions` preserves the number and order of the conditions, each
condition's name under the key `condition`. -/
theorem c10_to_dict_shape (r : DiagnosisResult) :
    r.to_dict.lifestyle_suggestions = r.lifestyle_suggestions.getD [] ∧
    DiagnosisResult.to_dict { r with lifestyle_suggestions := none } =
      DiagnosisResult.to_dict { r with lifestyle_suggestions := some [] } ∧
    r.to_dict.possible_conditions.length = r.conditions.length ∧
    r.to_dict.possible_conditions.map ConditionDict.condition = r.conditions.map Condition.name := by
  refine ⟨?_, ?_, ?_, ?_⟩
  · cases h : r.lifestyle_suggestions with
    | none => simp [DiagnosisResult.to_dict, h]
    | some l => cases l <;> simp [DiagnosisResult.to_dict, h]
  · simp [DiagnosisResult.to_dict]
  · simp [DiagnosisResult.to_dict]
  · simp [DiagnosisResult.to_dict]

/-- C2: an input fails validation exactly when it is blank/whitespace-only or
its trimmed length is below 3 (both captured by `(pyStrip s).length < 3`) or
its untrimmed length exceeds 2000; on a validation failure
`analyze_symptoms` returns the `ValidationError` with an empty effect list, so
no fact retrieval and no model call was attempted. -/
theorem c2_validation_gate (s : String) (outcome : Except String ReplyMap) (k : Nat) :
    (validate_symptoms s = .ok () ↔ 3 ≤ (pyStrip s).length ∧ s.length ≤ 2000) ∧
    (validate_symptoms s ≠ .ok () →
      ∃ e, DiagnosisAnalyzer.analyze_symptoms outcome k s = (.error e, [])) := by
  constructor
  · unfold validate_symptoms
    split_ifs with h1 h2 h3
    · simp only [Bool.or_eq_true, decide_eq_true_eq] at h1
      have h0 : pyStrip s = "" := by
        rcases h1 with h | h
        · rw [h, pyStrip_empty]
        · exact h
      simp [h0]
    · simp
      omega
    · simp
      omega
    · simp
      omega
  · intro hne
    cases hval : validate_symptoms s with
    | ok u => cases u; exact absurd hval hne
    | error e =>
      exact ⟨e, by simp [DiagnosisAnalyzer.analyze_symptoms, hval]⟩

/-- Witness for C2 at the whitespace-only input `"  "`. -/
theorem c2_validation_gate_witness :
    ∃ e, DiagnosisAnalyzer.analyze_symptoms (.error "boom") 5 "  " = (.error e, []) :=
  (c2_validation_gate "  " (.error "boom") 5).2 (by simp [validate_symptoms, pyStrip])

/-- C1: any validated symptom string containing an urgent keyword yields a
flagged result, for every gateway outcome — any reply map or a raised error. -/
theorem c1_urgent_keyword_forces_flag (s : String) (outcome : Except String ReplyMap)
    (k : Nat) (hv : validate_symptoms s = .ok ()) (hu : check_urgent_keywords s = true) :
    ((DiagnosisAnalyzer.analyze_symptoms outcome k s).1).toOption.map DiagnosisResult.flagged
      = some true := by
  cases outcome with
  | error e => simp [analyze_error_eq s e k hv, hu, Except.toOption]
  | ok rep => simp [analyze_ok_eq s rep k hv, hu, Except.toOption]

/-- Witness for C1 at `"chest pain"` with a failing gateway. -/
theorem c1_urgent_keyword_forces_flag_witness :
    ((DiagnosisAnalyzer.analyze_symptoms (.error "timeout") 5 "chest pain").1).toOption.map
        DiagnosisResult.flagged = some true :=
  c1_urgent_keyword_forces_flag "chest pain" (.error "timeout") 5 (by decide) (by decide)

/-- C3: when the gateway raises, the analyzer returns the single-condition
"Analysis Unavailable" fallback (Low confidence, Moderate urgency), with
`flagged` equal to the rule-based gate, `urgency_level` Urgent iff the gate
fired (else Moderate), and metadata recording the triggering error text. -/
theorem c3_gateway_error_fallback (s e : String) (k : Nat)
    (hv : validate_symptoms s = .ok ()) :
    DiagnosisAnalyzer.analyze_symptoms (.error e) k s =
      (.ok { conditions := [
               { name := "Analysis Unavailable"
                 confidence := .low
                 reasoning := "Unable to analyze symptoms at this time. Please consult a healthcare provider."
                 recommendation := "Please consult with a healthcare professional for proper evaluation."
                 urgency := .moderate }]
             flagged := check_urgent_keywords s
             urgency_level := if check_urgent_keywords s then .urgent else .moderate
             disclaimer := MEDICAL_DISCLAIMER
             next_steps := ["Consult a healthcare provider", "Monitor symptoms"]
             metadata := [("error", .str e)] },
       [.retrieval, .gatewayCall]) :=
  analyze_error_eq s e k hv

/-- Witness for C3 at `"severe chest pain and can't breathe"` with a timeout
error: flagged is true (rule-based) and urgency is Urgent. -/
theorem c3_gateway_error_fallback_witness :
    DiagnosisAnalyzer.analyze_symptoms (.error "timed out") 5 "severe chest pain and can't breathe" =
      (.ok { conditions := [
               { name := "Analysis Unavailable"
                 confidence := .low
                 reasoning := "Unable to analyze symptoms at this time. Please consult a healthcare provider."
                 recommendation := "Please consult with a healthcare professional for proper evaluation."
                 urgency := .moderate }]
             flagged := true
             urgency_level := .urgent
             disclaimer := MEDICAL_DISCLAIMER
             next_steps := ["Consult a healthcare provider", "Monitor symptoms"]
             metadata := [("error", .str "timed out")] },
       [.retrieval, .gatewayCall]) := by
  have h := c3_gateway_error_fallback "severe chest pain and can't breathe" "timed out" 5 (by decide)
  have hk : check_urgent_keywords "severe chest pain and can't breathe" = true := by decide
  rw [h, hk]
  simp

/-- C6: merging with the rule-based gate — the final `flagged` is the parsed
flag OR the gate, and `urgency_level` is upgraded to Urgent exactly when the
gate fired, the parsed flag was false and the parsed level was Moderate; in
every other case (gate off, already flagged, or a non-Moderate level such as
Critical or Low) the parsed level is kept unchanged. -/
theorem c6_rule_merge (s : String) (rep : ReplyMap) (k : Nat)
    (hv : validate_symptoms s = .ok ()) :
    ((DiagnosisAnalyzer.analyze_symptoms (.ok rep) k s).1).toOption.map DiagnosisResult.flagged
        = some ((parse_llm_response rep).flagged || check_urgent_keywords s) ∧
    ((DiagnosisAnalyzer.analyze_symptoms (.ok rep) k s).1).toOption.map DiagnosisResult.urgency_level
        = some (if check_urgent_keywords s = true ∧ (parse_llm_response rep).flagged = false ∧
                   (parse_llm_response rep).urgency_level = .moderate
                then .urgent else (parse_llm_response rep).urgency_level) := by
  rw [analyze_ok_eq s rep k hv]
  simp [Except.toOption]

/-- Witness for C6: urgent input (`"chest pain"` fires the gate) with a parsed
Critical, unflagged reply — Critical is not downgraded and the flag is set. -/
theorem c6_rule_merge_witness :
    ((DiagnosisAnalyzer.analyze_symptoms
        (.ok { is_urgent := some false, urgency_level := some "Critical" }) 5 "chest pain").1).toOption.map
        DiagnosisResult.flagged = some true ∧
    ((DiagnosisAnalyzer.analyze_symptoms
        (.ok { is_urgent := some false, urgency_level := some "Critical" }) 5 "chest pain").1).toOption.map
        DiagnosisResult.urgency_level = some UrgencyLevel.critical := by
  have h := c6_rule_merge "chest pain" { is_urgent := some false, urgency_level := some "Critical" } 5 (by decide)
  constructor
  · rw [h.1]
    decide
  · rw [h.2]
    decide

/-- `parse_llm_response` with reply `is_urgent` false and no critical/urgent
parsed condition: unflagged, urgency from the reply's top-level field. -/
lemma parse_flag_none {rep : ReplyMap} (hu : rep.is_urgent.getD false = false)
    (hfind : ((rep.conditions.getD []).map parse_condition).find?
        (fun cond => cond.urgency = .critical || cond.urgency = .urgent) = none) :
    (parse_llm_response rep).flagged = false ∧
    (parse_llm_response rep).urgency_level
      = (urgencyFromString (rep.urgency_level.getD "Moderate")).getD .moderate := by
  simp [parse_llm_response, hu, hfind]

/-- `parse_llm_response` with reply `is_urgent` false and a critical/urgent
parsed condition found: flagged, urgency from that condition. -/
lemma parse_flag_some {rep : ReplyMap} {cond : Condition} (hu : rep.is_urgent.getD false = false)
    (hfind : ((rep.conditions.getD []).map parse_condition).find?
        (fun cond => cond.urgency = .critical || cond.urgency = .urgent) = some cond) :
    (parse_llm_response rep).flagged = true ∧
    (parse_llm_response rep).urgency_level = cond.urgency ∧
    (cond.urgency = .critical ∨ cond.urgency = .urgent) := by
  refine ⟨?_, ?_, ?_⟩
  · simp [parse_llm_response, hu, hfind]
  · simp [parse_llm_response, hu, hfind]
  · have h := List.find?_some hfind
    simpa using h

/-- C4, counterexample to the claim as stated: the reply
`{is_urgent: true, urgency_level: "Moderate"}` on input `"mild itching"` (no
urgent keyword, so no rule-based trigger) yields a reachable result with
`flagged = true` and `urgency_level = Moderate`. -/
theorem c4_flag_invariant_counterexample :
    ((DiagnosisAnalyzer.analyze_symptoms
        (.ok { is_urgent := some true, urgency_level := some "Moderate" }) 5 "mild itching").1).toOption.map
        (fun r => (r.flagged, r.urgency_level)) = some (true, UrgencyLevel.moderate) ∧
    check_urgent_keywords "mild itching" = false := by
  decide

/-- C4 as amended: every reachable result with `flagged = true` has
`urgency_level` Critical or Urgent, except when the reply itself set
`is_urgent` true (the urgency is then whatever the reply's top-level
`urgency_level` parsed to, possibly Moderate or Low), or the rule-based
trigger fired on a reply whose parsed top-level urgency was Low (which is kept
unchanged). -/
theorem c4_flag_invariant_amended (s : String) (outcome : Except String ReplyMap)
    (k : Nat) (r : DiagnosisResult)
    (hv : validate_symptoms s = .ok ())
    (hr : (DiagnosisAnalyzer.analyze_symptoms outcome k s).1 = .ok r)
    (hf : r.flagged = true) :
    (r.urgency_level = .critical ∨ r.urgency_level = .urgent) ∨
    (∃ rep, outcome = .ok rep ∧ rep.is_urgent.getD false = true) ∨
    (∃ rep, outcome = .ok rep ∧ check_urgent_keywords s = true ∧
      (urgencyFromString (rep.urgency_level.getD "Moderate")).getD .moderate = .low) := by
  cases outcome with
  | error e =>
    rw [analyze_error_eq s e k hv] at hr
    simp only [Except.ok.injEq] at hr
    subst hr
    simp only at hf
    exact Or.inl (Or.inr (by simp [hf]))
  | ok rep =>
    by_cases hu : rep.is_urgent.getD false = true
    · exact Or.inr (Or.inl ⟨rep, rfl, hu⟩)
    · have hu' : rep.is_urgent.getD false = false := by simpa using hu
      rw [analyze_ok_eq s rep k hv] at hr
      simp only [Except.ok.injEq] at hr
      subst hr
      simp only at hf ⊢
      cases hfind : ((rep.conditions.getD []).map parse_condition).find?
          (fun cond => cond.urgency = .critical || cond.urgency = .urgent) with
      | some cond =>
        obtain ⟨hpf, hpu, hcu⟩ := parse_flag_some hu' hfind
        refine Or.inl ?_
        simp only [hpf, hpu]
        simpa using hcu
      | none =>
        obtain ⟨hpf, hpu⟩ := parse_flag_none hu' hfind
        have hrule : check_urgent_keywords s = true := by
          rw [hpf] at hf
          simpa using hf
        cases hlevel : (urgencyFromString (rep.urgency_level.getD "Moderate")).getD .moderate with
        | critical =>
          refine Or.inl (Or.inl ?_)
          simp [hpf, hpu, hlevel]
        | urgent =>
          refine Or.inl ?_
          simp [hpf, hpu, hlevel]
        | moderate =>
          refine Or.inl (Or.inr ?_)
          simp [hpf, hpu, hlevel, hrule]
        | low =>
          refine Or.inr (Or.inr ⟨rep, rfl, hrule, hlevel⟩)

set_option maxRecDepth 10000 in
/-- Witness for the amended C4 at `"chest pain"` with a failing gateway. -/
theorem c4_flag_invariant_amended_witness :
    (({ conditions := [
          { name := "Analysis Unavailable"
            confidence := .low
            reasoning := "Unable to analyze symptoms at this time. Please consult a healthcare provider."
            recommendation := "Please consult with a healthcare professional for proper evaluation."
            urgency := .moderate }]
        flagged := true
        urgency_level := .urgent
        disclaimer := MEDICAL_DISCLAIMER
        next_steps := ["Consult a healthcare provider", "Monitor symptoms"]
        metadata := [("error", .str "down")] } : DiagnosisResult).urgency_level = .critical ∨
     ({ conditions := [
          { name := "Analysis Unavailable"
            confidence := .low
            reasoning := "Unable to analyze symptoms at this time. Please consult a healthcare provider."
            recommendation := "Please consult with a healthcare professional for proper evaluation."
            urgency := .moderate }]
        flagged := true
        urgency_level := .urgent
        disclaimer := MEDICAL_DISCLAIMER
        next_steps := ["Consult a healthcare provider", "Monitor symptoms"]
        metadata := [("error", .str "down")] } : DiagnosisResult).urgency_level = .urgent) ∨
    (∃ rep, (Except.error "down" : Except String ReplyMap) = .ok rep ∧ rep.is_urgent.getD false = true) ∨
    (∃ rep, (Except.error "down" : Except String ReplyMap) = .ok rep ∧ check_urgent_keywords "chest pain" = true ∧
      (urgencyFromString (rep.urgency_level.getD "Moderate")).getD .moderate = .low) :=
  c4_flag_invariant_amended "chest pain" (.error "down") 5 _ (by decide) (by decide) (by decide)

/-- `List.find?` returns the entry at the first index satisfying the
predicate. -/
lemma find?_eq_of_first {α : Type} (p : α → Bool) :
    ∀ (l : List α) (i : Nat) (hi : i < l.length),
      p (l.get ⟨i, hi⟩) = true →
      (∀ j (hj : j < l.length), j < i → p (l.get ⟨j, hj⟩) = false) →
      l.find? p = some (l.get ⟨i, hi⟩) := by
  intro l
  induction l with
  | nil => intro i hi; simp at hi
  | cons a t ih =>
    intro i hi hp hfirst
    cases i with
    | zero =>
      exact List.find?_cons_of_pos _ hp
    | succ i' =>
      have ha : p a = false := hfirst 0 (by simp) (Nat.succ_pos _)
      rw [List.find?_cons_of_neg _ (by simp [ha])]
      exact ih i' (by simpa using Nat.lt_of_succ_lt_succ hi) hp
        (fun j hj hji => hfirst (j + 1) (by simpa using Nat.succ_lt_succ hj)
          (Nat.succ_lt_succ hji))

/-- C5: when the reply's `is_urgent` is false but its parsed conditions contain
a Critical/Urgent entry, the parsed result is flagged and its urgency is the
urgency of the first such condition in list order. -/
theorem c5_condition_scan_first_match (rep : ReplyMap) (i : Nat)
    (hu : rep.is_urgent.getD false = false)
    (hi : i < ((rep.conditions.getD []).map parse_condition).length)
    (hcu : (((rep.conditions.getD []).map parse_condition).get ⟨i, hi⟩).urgency = .critical ∨
           (((rep.conditions.getD []).map parse_condition).get ⟨i, hi⟩).urgency = .urgent)
    (hfirst : ∀ j (hj : j < ((rep.conditions.getD []).map parse_condition).length), j < i →
      ¬((((rep.conditions.getD []).map parse_condition).get ⟨j, hj⟩).urgency = .critical ∨
        (((rep.conditions.getD []).map parse_condition).get ⟨j, hj⟩).urgency = .urgent)) :
    (parse_llm_response rep).flagged = true ∧
    (parse_llm_response rep).urgency_level
      = (((rep.conditions.getD []).map parse_condition).get ⟨i, hi⟩).urgency := by
  have hfind := find?_eq_of_first
    (fun cond => cond.urgency = .critical || cond.urgency = .urgent)
    ((rep.conditions.getD []).map parse_condition) i hi
    (by simpa using hcu)
    (fun j hj hji => by simpa using hfirst j hj hji)
  exact ⟨(parse_flag_some hu hfind).1, (parse_flag_some hu hfind).2.1⟩

/-- Witness for C5: a reply with `is_urgent` false and a single Critical
condition parses to a flagged, Critical result. -/
theorem c5_condition_scan_first_match_witness :
    (parse_llm_response { conditions := some [{ urgency := some "Critical" }],
                          is_urgent := some false }).flagged = true ∧
    (parse_llm_response { conditions := some [{ urgency := some "Critical" }],
                          is_urgent := some false }).urgency_level
      = (((({ conditions := some [{ urgency := some "Critical" }],
              is_urgent := some false } : ReplyMap).conditions.getD []).map
            parse_condition).get ⟨0, by decide⟩).urgency :=
  c5_condition_scan_first_match
    { conditions := some [{ urgency := some "Critical" }], is_urgent := some false }
    0 (by decide) (by decide) (by decide) (fun j hj hji => by omega)

/-- If every listed attempt is a JSON-parse failure, the retry loop ends in the
graceful fallback reply, not an error. -/
lemma attemptLoop_all_parse (mr : Nat) (st : String) :
    ∀ (l : List GeminiClient.AttemptOutcome), l ≠ [] →
      (∀ a ∈ l, ∃ m, a = .parseFailure m) →
      GeminiClient.attemptLoop mr st l = .ok (GeminiClient.create_fallback_response st) := by
  intro l
  induction l with
  | nil => intro h; exact absurd rfl h
  | cons a rest ih =>
    intro _ hall
    obtain ⟨m, hm⟩ := hall a (List.mem_cons_self a rest)
    subst hm
    cases rest with
    | nil => simp [GeminiClient.attemptLoop]
    | cons b t =>
      simp only [GeminiClient.attemptLoop, List.isEmpty_cons, if_neg]
      exact ih (by simp) (fun x hx => hall x (List.mem_cons_of_mem _ hx))

/-- A parse failure before the last attempt just moves on to the next
attempt. -/
lemma attemptLoop_cons_parseFailure (mr : Nat) (st m : String)
    (rest : List GeminiClient.AttemptOutcome) (h : rest ≠ []) :
    GeminiClient.attemptLoop mr st (.parseFailure m :: rest) =
      GeminiClient.attemptLoop mr st rest := by
  have hne : rest.isEmpty = false := by simpa [List.isEmpty_iff] using h
  simp [GeminiClient.attemptLoop, hne]

/-- A non-parse failure before the last attempt just moves on to the next
attempt. -/
lemma attemptLoop_cons_otherFailure (mr : Nat) (st m : String)
    (rest : List GeminiClient.AttemptOutcome) (h : rest ≠ []) :
    GeminiClient.attemptLoop mr st (.otherFailure m :: rest) =
      GeminiClient.attemptLoop mr st rest := by
  have hne : rest.isEmpty = false := by simpa [List.isEmpty_iff] using h
  simp [GeminiClient.attemptLoop, hne]

/-- If every attempt before the last fails (either way) and the last attempt is
a non-parse failure, the retry loop raises the gateway error carrying the
attempt count and the last error text. -/
lemma attemptLoop_last_other (mr : Nat) (st e : String) :
    ∀ (l : List GeminiClient.AttemptOutcome),
      (∀ a ∈ l, (∃ m, a = .parseFailure m) ∨ (∃ m, a = .otherFailure m)) →
      GeminiClient.attemptLoop mr st (l ++ [.otherFailure e]) =
        .error ("Failed to get response from Gemini API after " ++ toString mr
          ++ " attempts: " ++ e) := by
  intro l
  induction l with
  | nil => simp [GeminiClient.attemptLoop]
  | cons a rest ih =>
    intro hall
    have htail := fun x hx => hall x (List.mem_cons_of_mem _ hx)
    rcases hall a (List.mem_cons_self a rest) with ⟨m, hm⟩ | ⟨m, hm⟩ <;> subst hm
    · rw [List.cons_append, attemptLoop_cons_parseFailure mr st m _ (by simp)]
      exact ih htail
    · rw [List.cons_append, attemptLoop_cons_otherFailure mr st m _ (by simp)]
      exact ih htail

/-- C7: the gateway's failure handling is asymmetric.  If all `max_retries`
attempts end in JSON-parse failures, `GeminiClient.analyze_symptoms` does not
fail but returns the fixed fallback reply (one "Unable to analyze" condition
with Low confidence and Moderate urgency, `is_urgent` false, generic next
steps, empty lifestyle list); if the final attempt (reached because every
earlier attempt failed) ends in any other failure, it raises a gateway error
carrying the last underlying error text and the attempt count. -/
theorem c7_gateway_retry_asymmetry (mr : Nat) (st : String)
    (attempts : Nat → GeminiClient.AttemptOutcome) (hmr : 0 < mr) :
    ((∀ i, i < mr → ∃ m, attempts i = .parseFailure m) →
      GeminiClient.analyze_symptoms mr st attempts =
        .ok { conditions := some [
                { name := some "Unable to analyze"
                  confidence := some "Low"
                  reasoning := some "Unable to process symptoms at this time. Please consult a healthcare provider."
                  recommendation := some "Please consult with a healthcare professional for proper evaluation."
                  urgency := some "Moderate"
                  related_symptoms := some [] }]
              is_urgent := some false
              urgency_level := some "Moderate"
              next_steps := some ["Consult a healthcare provider", "Monitor symptoms", "Seek emergency care if symptoms worsen"]
              lifestyle_suggestions := some [] }) ∧
    (∀ e, (∀ i, i < mr - 1 → (∃ m, attempts i = .parseFailure m) ∨
              (∃ m, attempts i = .otherFailure m)) →
      attempts (mr - 1) = .otherFailure e →
      GeminiClient.analyze_symptoms mr st attempts =
        .error ("Failed to get response from Gemini API after " ++ toString mr
          ++ " attempts: " ++ e)) := by
  constructor
  · intro hall
    have h := attemptLoop_all_parse mr st ((List.range mr).map attempts)
      (by simpa using Nat.not_eq_zero_of_lt hmr)
      (by
        intro a ha
        obtain ⟨i, hi, rfl⟩ := List.mem_map.mp ha
        exact hall i (List.mem_range.mp hi))
    exact h
  · intro e hearlier hlast
    have hsplit : List.range mr = List.range (mr - 1) ++ [mr - 1] := by
      have : mr = (mr - 1) + 1 := (Nat.succ_pred_eq_of_pos hmr).symm
      rw [this, List.range_succ]
      simp
    unfold GeminiClient.analyze_symptoms
    rw [hsplit, List.map_append]
    simp only [List.map_cons, List.map_nil, hlast]
    exact attemptLoop_last_other mr st e _
      (by
        intro a ha
        obtain ⟨i, hi, rfl⟩ := List.mem_map.mp ha
        exact hearlier i (List.mem_range.mp hi))

/-- Witness for C7 with two attempts: all-parse-failures yields the fallback
reply; an other-failure on the final attempt yields the gateway error. -/
theorem c7_gateway_retry_asymmetry_witness :
    (GeminiClient.analyze_symptoms 2 "sore throat" (fun _ => .parseFailure "bad json") =
      .ok { conditions := some [
              { name := some "Unable to analyze"
                confidence := some "Low"
                reasoning := some "Unable to process symptoms at this time. Please consult a healthcare provider."
                recommendation := some "Please consult with a healthcare professional for proper evaluation."
                urgency := some "Moderate"
                related_symptoms := some [] }]
            is_urgent := some false
            urgency_level := some "Moderate"
            next_steps := some ["Consult a healthcare provider", "Monitor symptoms", "Seek emergency care if symptoms worsen"]
            lifestyle_suggestions := some [] }) ∧
    (GeminiClient.analyze_symptoms 2 "sore throat"
        (fun i => if i = 1 then .otherFailure "connection reset" else .parseFailure "bad json") =
      .error ("Failed to get response from Gemini API after " ++ toString 2
        ++ " attempts: " ++ "connection reset")) := by
  constructor
  · exact (c7_gateway_retry_asymmetry 2 "sore throat" (fun _ => .parseFailure "bad json")
      (by decide)).1 (fun i _ => ⟨"bad json", rfl⟩)
  · exact (c7_gateway_retry_asymmetry 2 "sore throat"
      (fun i => if i = 1 then .otherFailure "connection reset" else .parseFailure "bad json")
      (by decide)).2 "connection reset"
      (by
        intro i hi
        left
        exact ⟨"bad json", by simp; omega⟩)
      (by simp)

/-- C8, counterexample to the claim as stated: `"sadness"` is non-blank, yet
retrieval with the default fan-out k = 5 returns a single fact (the one
keyword-matching fact), fewer than `min(k, total facts)` = 5. -/
theorem c8_retrieval_bounds_counterexample :
    pyStrip "sadness" ≠ "" ∧
    (RAGEngine.retrieve_relevant_facts "sadness" 5).length < min 5 get_all_facts.length := by
  decide

/-- C8 as amended: retrieval returns at most `k` facts; for non-blank input and
`k ≥ 1` the result is nonempty; blank (empty or whitespace-only) input yields
the empty list.  The original lower bound `min(k, total)` only holds on the
fallback paths, not when keyword matching returns a short nonempty list. -/
theorem c8_retrieval_bounds_amended (s : String) (k : Nat) :
    (RAGEngine.retrieve_relevant_facts s k).length ≤ k ∧
    (pyStrip s ≠ "" → 1 ≤ k → RAGEngine.retrieve_relevant_facts s k ≠ []) ∧
    (pyStrip s = "" → RAGEngine.retrieve_relevant_facts s k = []) := by
  have hdb : get_all_facts ≠ [] := by decide
  have htake : ∀ m : Nat, 1 ≤ m → get_all_facts.take m ≠ [] := by
    intro m hm
    simp only [ne_eq, List.take_eq_nil_iff]
    push_neg
    exact ⟨by omega, hdb⟩
  by_cases hs : pyStrip s = ""
  · have hblank : RAGEngine.retrieve_relevant_facts s k = [] := by
      simp [RAGEngine.retrieve_relevant_facts, hs]
    refine ⟨by simp [hblank], fun h _ => absurd hs h, fun _ => hblank⟩
  · have hs0 : s ≠ "" := fun h => hs (by rw [h, pyStrip_empty])
    have hnb : RAGEngine.retrieve_relevant_facts s k =
        (if RAGEngine.extract_keywords s = [] then get_all_facts.take k
         else if get_facts_by_keywords (RAGEngine.extract_keywords s) k = [] then
           get_all_facts.take k
         else get_facts_by_keywords (RAGEngine.extract_keywords s) k) := by
      simp [RAGEngine.retrieve_relevant_facts, hs0, hs]
    rw [hnb]
    refine ⟨?_, ?_, fun h => absurd h hs⟩
    · split_ifs with h2 h3
      · simp
      · simp
      · exact get_facts_by_keywords_length_le _ k
    · intro _ hk
      split_ifs with h2 h3
      · exact htake k hk
      · exact htake k hk
      · exact h3

/-- Witness for the amended C8 at `"sadness"`, k = 5. -/
theorem c8_retrieval_bounds_amended_witness :
    RAGEngine.retrieve_relevant_facts "sadness" 5 ≠ [] :=
  (c8_retrieval_bounds_amended "sadness" 5).2.1 (by decide) (by decide)

/-! ## Specification-level retrieval (spec §4.1), for the refinement claim C9

The following definitions are written from the spec's words, to be compared
with `get_facts_by_keywords`: score = (count of user keywords that match some
fact keyword under the bidirectional case-insensitive substring test)
× reliability; zero-score facts excluded; sorted by descending score with ties
broken by original table order; truncated to `limit`. -/

/-- Spec-side score count: how many user keywords match some fact keyword under
`user_kw in fact_kw or fact_kw in user_kw`, case-insensitively. -/
def spec_match_count (keywords : List String) (fact : MedicalFact) : Nat :=
  keywords.countP (fun user_kw => fact.keywords.any (fun fact_kw =>
    strContains (lowerStr fact_kw) (lowerStr user_kw) ||
    strContains (lowerStr user_kw) (lowerStr fact_kw)))

/-- Tag each fact with its position in the table, starting at `n`. -/
def tagFacts : Nat → List MedicalFact → List (Nat × MedicalFact)
  | _, [] => []
  | n, f :: fs => (n, f) :: tagFacts (n + 1) fs

/-- Spec-side scored entries: (weighted score, table index, fact) for every
fact with a positive match count. -/
def spec_scored (keywords : List String) : List (ℚ × Nat × MedicalFact) :=
  (tagFacts 0 MEDICAL_FACTS_DB).filterMap (fun p =>
    if spec_match_count keywords p.2 > 0 then
      some ((spec_match_count keywords p.2 : ℚ) * p.2.reliability_score, p.1, p.2)
    else none)

/-- The spec's result order as a strict total order on scored entries: higher
score first, ties by smaller table index. -/
def specBefore (a b : ℚ × Nat × MedicalFact) : Bool :=
  decide (b.1 < a.1) || (decide (a.1 = b.1) && decide (a.2.1 < b.2.1))

/-- Insertion into a list sorted by `specBefore`. -/
def insertSpec (x : ℚ × Nat × MedicalFact) :
    List (ℚ × Nat × MedicalFact) → List (ℚ × Nat × MedicalFact)
  | [] => [x]
  | y :: ys => if specBefore x y then x :: y :: ys else y :: insertSpec x ys

/-- Sort by the strict total order `specBefore`. -/
def sortSpec : List (ℚ × Nat × MedicalFact) → List (ℚ × Nat × MedicalFact)
  | [] => []
  | x :: xs => insertSpec x (sortSpec xs)

/-- Spec-side `get_by_keywords`: positive-score facts sorted by descending
score with ties in table order, truncated to `limit`. -/
def spec_get_by_keywords (keywords : List String) (limit : Nat) : List MedicalFact :=
  ((sortSpec (spec_scored keywords)).take limit).map (·.2.2)

/-- Drop the table index from a spec-side scored entry. -/
def untagScored (t : ℚ × Nat × MedicalFact) : ℚ × MedicalFact := (t.1, t.2.2)

/-- A counting fold equals `countP`. -/
lemma foldl_count {α : Type} (p : α → Bool) (l : List α) (n : Nat) :
    l.foldl (fun s x => if p x then s + 1 else s) n = n + l.countP p := by
  induction l generalizing n with
  | nil => simp
  | cons a t ih =>
    by_cases h : p a
    · simp [List.foldl_cons, h, ih, List.countP_cons]
      omega
    · simp [List.foldl_cons, h, ih, List.countP_cons]

/-- The implementation's per-fact score equals the spec-side count. -/
lemma score_eq (keywords : List String) (fact : MedicalFact) :
    factMatchScore keywords fact = spec_match_count keywords fact := by
  unfold factMatchScore spec_match_count
  rw [foldl_count]
  simp only [List.countP_map, List.any_map, Nat.zero_add]
  rfl

/-- The implementation's append-only fold over the table is a `filterMap`. -/
lemma scored_foldl_eq (keywords : List String) :
    ∀ (l : List MedicalFact) (acc : List (ℚ × MedicalFact)),
      l.foldl (fun acc fact =>
        let score := factMatchScore keywords fact
        if score > 0 then acc ++ [((score : ℚ) * fact.reliability_score, fact)] else acc) acc
      = acc ++ l.filterMap (fun fact =>
          if factMatchScore keywords fact > 0 then
            some ((factMatchScore keywords fact : ℚ) * fact.reliability_score, fact)
          else none) := by
  intro l
  induction l with
  | nil => simp
  | cons f t ih =>
    intro acc
    by_cases h : factMatchScore keywords f > 0 <;>
      simp [List.foldl_cons, List.filterMap_cons, h, ih]

/-- Untagging the spec-side scored entries yields the implementation's scored
list. -/
lemma tagFacts_untag_filterMap (keywords : List String) :
    ∀ (n : Nat) (l : List MedicalFact),
      ((tagFacts n l).filterMap (fun p =>
          if spec_match_count keywords p.2 > 0 then
            some ((spec_match_count keywords p.2 : ℚ) * p.2.reliability_score, p.1, p.2)
          else none)).map untagScored
        = l.filterMap (fun fact =>
            if spec_match_count keywords fact > 0 then
              some ((spec_match_count keywords fact : ℚ) * fact.reliability_score, fact)
            else none) := by
  intro n l
  induction l generalizing n with
  | nil => simp [tagFacts]
  | cons f t ih =>
    simp only [tagFacts, List.filterMap_cons]
    by_cases h : spec_match_count keywords f > 0 <;> simp [h, untagScored, ih]

/-- Every tag produced by `tagFacts n` is at least `n`. -/
lemma tagFacts_mem_ge (l : List MedicalFact) :
    ∀ (n : Nat) (y : Nat × MedicalFact), y ∈ tagFacts n l → n ≤ y.1 := by
  induction l with
  | nil => intro n y hy; simp [tagFacts] at hy
  | cons f t ih =>
    intro n y hy
    simp only [tagFacts, List.mem_cons] at hy
    rcases hy with rfl | hy
    · simp
    · exact Nat.le_of_succ_le (ih (n + 1) y hy)

/-- Tags are strictly increasing along `tagFacts`. -/
lemma tagFacts_pairwise (l : List MedicalFact) :
    ∀ n, (tagFacts n l).Pairwise (fun a b => a.1 < b.1) := by
  induction l with
  | nil => intro n; simp [tagFacts]
  | cons f t ih =>
    intro n
    simp only [tagFacts]
    refine List.Pairwise.cons ?_ (ih (n + 1))
    intro y hy
    have h := tagFacts_mem_ge t (n + 1) y hy
    simp only
    omega

/-- Table indices are strictly increasing along the spec-side scored list. -/
lemma spec_scored_pairwise (keywords : List String) :
    (spec_scored keywords).Pairwise (fun a b => a.2.1 < b.2.1) := by
  unfold spec_scored
  have hp := tagFacts_pairwise MEDICAL_FACTS_DB 0
  revert hp
  generalize tagFacts 0 MEDICAL_FACTS_DB = l
  induction l with
  | nil => intro _; simp
  | cons p t ih =>
    intro hp
    rw [List.pairwise_cons] at hp
    obtain ⟨hhead, htail⟩ := hp
    rw [List.filterMap_cons]
    by_cases h : spec_match_count keywords p.2 > 0
    · rw [if_pos h]
      refine List.Pairwise.cons ?_ (ih htail)
      intro y hy
      obtain ⟨q, hq, hqy⟩ := List.mem_filterMap.mp hy
      by_cases h2 : spec_match_count keywords q.2 > 0
      · rw [if_pos h2] at hqy
        simp only [Option.some.injEq] at hqy
        rw [← hqy]
        simpa using hhead q hq
      · rw [if_neg h2] at hqy
        exact absurd hqy (by simp)
    · rw [if_neg h]
      exact ih htail

/-- Members of `insertSpec x l` are `x` or members of `l`. -/
lemma mem_insertSpec {x y : ℚ × Nat × MedicalFact} :
    ∀ {l}, y ∈ insertSpec x l → y = x ∨ y ∈ l := by
  intro l
  induction l with
  | nil =>
    intro h
    simp only [insertSpec, List.mem_singleton] at h
    exact Or.inl h
  | cons z zs ih =>
    intro h
    simp only [insertSpec] at h
    split_ifs at h with hb
    · rcases List.mem_cons.mp h with rfl | h
      · exact Or.inl rfl
      · exact Or.inr h
    · rcases List.mem_cons.mp h with rfl | h
      · exact Or.inr (List.mem_cons_self _ _)
      · rcases ih h with h' | h'
        · exact Or.inl h'
        · exact Or.inr (List.mem_cons_of_mem _ h')

/-- Members of `sortSpec l` are members of `l`. -/
lemma mem_sortSpec {y : ℚ × Nat × MedicalFact} :
    ∀ {l}, y ∈ sortSpec l → y ∈ l := by
  intro l
  induction l with
  | nil => intro h; simp [sortSpec] at h
  | cons x xs ih =>
    intro h
    simp only [sortSpec] at h
    rcases mem_insertSpec h with rfl | h
    · exact List.mem_cons_self _ _
    · exact List.mem_cons_of_mem _ (ih h)

/-- When `x` carries a smaller table index than everything in `l`, inserting by
the spec's total order and untagging is inserting by the implementation's
stable descending order. -/
lemma insertSpec_untag (x : ℚ × Nat × MedicalFact) :
    ∀ (l : List (ℚ × Nat × MedicalFact)), (∀ y ∈ l, x.2.1 < y.2.1) →
      (insertSpec x l).map untagScored = insertDesc (untagScored x) (l.map untagScored) := by
  intro l
  induction l with
  | nil => simp [insertSpec, insertDesc]
  | cons y ys ih =>
    intro h
    have hxy : x.2.1 < y.2.1 := h y (List.mem_cons_self _ _)
    have hcond : specBefore x y = decide (y.1 ≤ x.1) := by
      unfold specBefore
      rcases lt_trichotomy y.1 x.1 with hlt | heq | hgt
      · simp [hlt, le_of_lt hlt]
      · simp [heq, hxy]
      · simp [lt_asymm hgt, ne_of_lt hgt, not_le.mpr hgt]
    simp only [insertSpec, insertDesc, List.map_cons, hcond]
    by_cases hle : y.1 ≤ x.1
    · simp [hle, untagScored]
    · simp [hle, untagScored, ih (fun z hz => h z (List.mem_cons_of_mem _ hz))]

/-- When table indices strictly increase along `l`, sorting by the spec's total
order and untagging is the implementation's stable descending sort. -/
lemma sortSpec_untag :
    ∀ (l : List (ℚ × Nat × MedicalFact)), l.Pairwise (fun a b => a.2.1 < b.2.1) →
      (sortSpec l).map untagScored = pySortDesc (l.map untagScored) := by
  intro l
  induction l with
  | nil => simp [sortSpec, pySortDesc]
  | cons x xs ih =>
    intro hp
    rw [List.pairwise_cons] at hp
    obtain ⟨hhead, htail⟩ := hp
    simp only [sortSpec, List.map_cons, pySortDesc]
    rw [insertSpec_untag x (sortSpec xs) (fun y hy => hhead y (mem_sortSpec hy)), ih htail]

/-- C9: `get_facts_by_keywords` computes exactly the spec's §4.1 retrieval —
score each fact by (number of user keywords matching some fact keyword under
the case-insensitive bidirectional substring test, each user keyword counted at
most once) × reliability, exclude zero-match facts, sort by descending score
with ties broken by original table order, and return the top `limit`. -/
theorem c9_get_facts_by_keywords_refines_spec (keywords : List String) (limit : Nat) :
    get_facts_by_keywords keywords limit = spec_get_by_keywords keywords limit := by
  have h1 : MEDICAL_FACTS_DB.foldl
      (fun acc fact =>
        let score := factMatchScore keywords fact
        if score > 0 then acc ++ [((score : ℚ) * fact.reliability_score, fact)] else acc) []
      = (spec_scored keywords).map untagScored := by
    rw [scored_foldl_eq keywords MEDICAL_FACTS_DB []]
    simp only [score_eq]
    rw [← tagFacts_untag_filterMap keywords 0 MEDICAL_FACTS_DB]
    rfl
  simp only [get_facts_by_keywords, spec_get_by_keywords]
  rw [h1, ← sortSpec_untag _ (spec_scored_pairwise keywords), ← List.map_take, List.map_map]
  rfl
